import Mathlib

/-!
# Verification of the EmbeddedEngine command-line shell

Shallow embedding of `src/main.rs`:

```rust
use clap::Parser;
use embeddedengine::{Result, run};

#[derive(Parser)]
#[command(version, about = "EmbeddedEngine - A Rust implementation")]
struct Cli {
    /// Enable verbose output
    #[arg(short, long)]
    verbose: bool,
}

fn main() -> Result<()> {
    let args = Cli::parse();
    run(args.verbose)
}
```

The `Cli` struct declares one boolean flag with an auto-derived short form
(`-v`) and long form (`--verbose`); the `#[command(version)]` attribute adds
the standard `-V`/`--version` flag, and clap always provides `-h`/`--help`.
`Cli.parse` below embeds the parser that `clap`'s derive generates for this
declaration, processing the user arguments (after the program name)
left-to-right as clap does:

* `--help` / `--version` / `--verbose` are recognised long flags; any other
  `--...` argument is a usage error (no positional arguments are declared,
  so a lone `--` is accepted only when nothing follows it);
* an argument `-xyz...` is a bundle of short flags processed character by
  character (`h` shows help, `V` shows version, `v` sets verbose, anything
  else is a usage error);
* the help and version actions trigger immediately when their flag is
  reached, terminating the process with a success status;
* the `verbose` flag uses clap's `SetTrue` action, which rejects a second
  occurrence ("cannot be used multiple times") as a usage error;
* any argument that is not a recognised flag (including `-`, the empty
  string, and anything after `--`) is a usage error, since the declaration
  has no positional arguments.

A usage error makes `Cli::parse` exit the process with a non-success
status; help/version display exits with a success status.  When parsing
succeeds, `main` calls the external library function `run` once and returns
its `Result<()>`; Rust's `Termination` turns `Ok(())` into a success exit
status and `Err(e)` into a non-success one.  The engine `run` is not part of
the provided source, so it is kept opaque: `main` is parameterised by an
arbitrary function `run : Bool → Outcome ε`.
-/

/-- The parsed command-line configuration (`struct Cli` in `src/main.rs`). -/
structure Cli where
  verbose : Bool
deriving DecidableEq

/-- Modelled from the spec: the outcome of the opaque engine entry point
`embeddedengine::run` (its code is not in the provided source).  It is "a
binary result carrying either a no-value success or an error condition";
the error type is kept abstract. -/
inductive Outcome (ε : Type) where
  | ok : Outcome ε
  | err : ε → Outcome ε
deriving DecidableEq

/-- Binary process exit status: `success` (exit code 0) or `failure`
(any non-zero exit code; clap usage errors use 2, a returned `Err` uses 1 —
both are non-success and the exact number is not constrained). -/
inductive ExitStatus where
  | success
  | failure
deriving DecidableEq

/-- Result of `Cli::parse`: a parsed configuration, a help display, a
version display, or a usage error.  The last three terminate the process
inside `Cli::parse`. -/
inductive ParseResult where
  | ok : Cli → ParseResult
  | help : ParseResult
  | version : ParseResult
  | error : ParseResult
deriving DecidableEq

/-- Result of processing one bundle of short flags: the updated verbose
state, or an immediate help/version action, or a usage error. -/
inductive ShortResult where
  | ok : Bool → ShortResult
  | help : ShortResult
  | version : ShortResult
  | error : ShortResult
deriving DecidableEq

/-- Syntactic classification of a single command-line argument, as clap's
lexer sees it for this `Cli` declaration. -/
inductive ArgClass where
  | ddash : ArgClass
  | long_help : ArgClass
  | long_version : ArgClass
  | long_verbose : ArgClass
  | shorts : List Char → ArgClass
  | other : ArgClass
deriving DecidableEq

/-- Classify one argument: the three recognised long flags, the `--`
separator, a bundle of short flags (`-` followed by at least one character
that is not `-`), or anything else (unknown long option, lone `-`, empty
string, positional value — all usage errors here, since no positional
arguments are declared). -/
def classify (a : String) : ArgClass :=
  if a = "--" then ArgClass.ddash
  else if a = "--help" then ArgClass.long_help
  else if a = "--version" then ArgClass.long_version
  else if a = "--verbose" then ArgClass.long_verbose
  else
    match a.data with
    | '-' :: '-' :: _ => ArgClass.other
    | '-' :: c :: cs => ArgClass.shorts (c :: cs)
    | _ => ArgClass.other

/-- Process a bundle of short flags character by character, threading the
current verbose state.  `h` triggers help, `V` triggers version, `v` sets
verbose (a second occurrence is the clap "cannot be used multiple times"
usage error), anything else is an unknown-argument usage error. -/
def parseShorts (vb : Bool) : List Char → ShortResult
  | [] => ShortResult.ok vb
  | c :: cs =>
    if c = 'h' then ShortResult.help
    else if c = 'V' then ShortResult.version
    else if c = 'v' then
      if vb then ShortResult.error else parseShorts true cs
    else ShortResult.error

/-- Left-to-right argument processing of clap's derived parser for `Cli`,
threading the current verbose state. -/
def parseTokens (vb : Bool) : List String → ParseResult
  | [] => ParseResult.ok ⟨vb⟩
  | a :: rest =>
    match classify a with
    | ArgClass.ddash =>
        if rest = [] then ParseResult.ok ⟨vb⟩ else ParseResult.error
    | ArgClass.long_help => ParseResult.help
    | ArgClass.long_version => ParseResult.version
    | ArgClass.long_verbose =>
        if vb then ParseResult.error else parseTokens true rest
    | ArgClass.shorts cs =>
        match parseShorts vb cs with
        | ShortResult.ok b => parseTokens b rest
        | ShortResult.help => ParseResult.help
        | ShortResult.version => ParseResult.version
        | ShortResult.error => ParseResult.error
    | ArgClass.other => ParseResult.error

/-- `Cli::parse` on the user arguments (the program name already
stripped). -/
def Cli.parse (args : List String) : ParseResult :=
  parseTokens false args

/-- What the process does after `fn main` runs: either `Cli::parse` exited
the process itself (help/version display or usage error), or `main`
returned the engine's `Result<()>`. -/
inductive ProcessResult (ε : Type) where
  | exited : ExitStatus → ProcessResult ε
  | returned : Outcome ε → ProcessResult ε
deriving DecidableEq

/-- `fn main` of `src/main.rs`, parameterised by the opaque engine entry
point `run`: parse the arguments, then call `run(args.verbose)` and return
its result.  Help and version display exit with success; a usage error
exits with non-success. -/
def mainFn {ε : Type} (run : Bool → Outcome ε) (args : List String) :
    ProcessResult ε :=
  match Cli.parse args with
  | ParseResult.ok c => ProcessResult.returned (run c.verbose)
  | ParseResult.help => ProcessResult.exited ExitStatus.success
  | ParseResult.version => ProcessResult.exited ExitStatus.success
  | ParseResult.error => ProcessResult.exited ExitStatus.failure

/-- Rust's `Termination` for `Result<(), E>` composed with the exits taken
inside `Cli::parse`: the final process exit status. -/
def exitOf {ε : Type} : ProcessResult ε → ExitStatus
  | ProcessResult.exited s => s
  | ProcessResult.returned Outcome.ok => ExitStatus.success
  | ProcessResult.returned (Outcome.err _) => ExitStatus.failure

/-- The process exit status of one run of the program. -/
def mainExit {ε : Type} (run : Bool → Outcome ε) (args : List String) :
    ExitStatus :=
  exitOf (mainFn run args)

/-- The trace of calls made to the engine entry point during one process
run: `run` is called exactly when `Cli::parse` returns a configuration, and
then exactly once, with the parsed verbose value. -/
def engineCalls (args : List String) : List Bool :=
  match Cli.parse args with
  | ParseResult.ok c => [c.verbose]
  | _ => []

/-- Number of occurrences of the verbosity flag (either form) in an
argument list. -/
def countV (args : List String) : Nat :=
  args.countP (fun a => a == "-v" || a == "--verbose")

/-- An argument string recognised by this parser as a complete flag (or
the `--` separator). -/
def recognizedArg (a : String) : Bool :=
  a == "-v" || a == "--verbose" || a == "-h" || a == "--help" ||
    a == "-V" || a == "--version" || a == "--"

example : Cli.parse [] = ParseResult.ok ⟨false⟩ := by decide
example : Cli.parse ["-v"] = ParseResult.ok ⟨true⟩ := by decide
example : Cli.parse ["--verbose"] = ParseResult.ok ⟨true⟩ := by decide
example : Cli.parse ["--help"] = ParseResult.help := by decide
example : Cli.parse ["-V"] = ParseResult.version := by decide
example : Cli.parse ["-vh"] = ParseResult.help := by decide
example : Cli.parse ["-v", "-v"] = ParseResult.error := by decide
example : Cli.parse ["-v", "--verbose"] = ParseResult.error := by decide
example : Cli.parse ["--bogus", "--help"] = ParseResult.error := by decide
example : Cli.parse ["--help", "-v", "-v"] = ParseResult.help := by decide
example : Cli.parse ["--"] = ParseResult.ok ⟨false⟩ := by decide
example : Cli.parse ["--", "x"] = ParseResult.error := by decide
example : Cli.parse ["-"] = ParseResult.error := by decide
example : mainExit (fun _ => Outcome.err 3) ["-v"] = ExitStatus.failure := by
  decide
example : mainExit (fun _ => (Outcome.ok : Outcome Nat)) [] = ExitStatus.success := by
  decide

/-! ## Classification inversion lemmas -/

theorem classify_eq_ddash {a : String} (h : classify a = ArgClass.ddash) :
    a = "--" := by
  unfold classify at h
  split_ifs at h with h1 h2 h3 h4
  · exact h1
  · split at h <;> simp at h

theorem classify_eq_long_help {a : String}
    (h : classify a = ArgClass.long_help) : a = "--help" := by
  unfold classify at h
  split_ifs at h with h1 h2 h3 h4
  · exact h2
  · split at h <;> simp at h

theorem classify_eq_long_version {a : String}
    (h : classify a = ArgClass.long_version) : a = "--version" := by
  unfold classify at h
  split_ifs at h with h1 h2 h3 h4
  · exact h3
  · split at h <;> simp at h

theorem classify_eq_long_verbose {a : String}
    (h : classify a = ArgClass.long_verbose) : a = "--verbose" := by
  unfold classify at h
  split_ifs at h with h1 h2 h3 h4
  · exact h4
  · split at h <;> simp at h

theorem classify_eq_shorts {a : String} {cs : List Char}
    (h : classify a = ArgClass.shorts cs) : a.data = '-' :: cs ∧ cs ≠ [] := by
  unfold classify at h
  split_ifs at h with h1 h2 h3 h4
  split at h
  · simp at h
  · rename_i c cs2 heq
    injection h with h
    subst h
    exact ⟨heq, by simp⟩
  · simp at h

/-! ## Short-flag bundle lemmas -/

theorem parseShorts_ok {vb b : Bool} {cs : List Char} (hne : cs ≠ [])
    (h : parseShorts vb cs = ShortResult.ok b) :
    cs = ['v'] ∧ vb = false ∧ b = true := by
  match cs, hne with
  | c :: cs2, _ =>
    simp only [parseShorts] at h
    split_ifs at h with hh hV hv hvb
    cases cs2 with
    | nil =>
      simp only [parseShorts] at h
      injection h with hb
      subst hv
      refine ⟨rfl, ?_, hb.symm⟩
      simp at hvb
      exact hvb
    | cons c1 cs1 =>
      simp only [parseShorts] at h
      split_ifs at h

/-! ## Counting occurrences of the verbosity flag -/

theorem countV_nil : countV [] = 0 := rfl

theorem countV_cons (a : String) (l : List String) :
    countV (a :: l) =
      countV l + (if a = "-v" ∨ a = "--verbose" then 1 else 0) := by
  simp only [countV, List.countP_cons]
  by_cases h1 : a = "-v"
  · simp [h1]
  · by_cases h2 : a = "--verbose"
    · simp [h2]
    · simp [h1, h2]

/-! ## Structure of successful parses

A successful parse contains the verbosity flag at most once (counting the
initial verbose state), yields `verbose = true` exactly when the flag was
seen, and consists only of `-v`, `--verbose` and `--` arguments. -/

theorem parseTokens_ok_spec {args : List String} {vb : Bool} {c : Cli}
    (h : parseTokens vb args = ParseResult.ok c) :
    countV args + (if vb then 1 else 0) ≤ 1 ∧
      (c.verbose = true ↔ (vb = true ∨ 0 < countV args)) ∧
      ∀ a ∈ args, a = "-v" ∨ a = "--verbose" ∨ a = "--" := by
  induction args generalizing vb with
  | nil =>
    simp only [parseTokens] at h
    injection h with h
    subst h
    refine ⟨?_, ?_, ?_⟩
    · cases vb <;> simp [countV_nil]
    · simp [countV_nil]
    · intro a ha
      simp at ha
  | cons a rest ih =>
    simp only [parseTokens] at h
    split at h
    · rename_i hcl
      have ha : a = "--" := classify_eq_ddash hcl
      by_cases hrest : rest = []
      · rw [if_pos hrest] at h
        injection h with h
        subst h
        subst hrest
        subst ha
        have h0 : countV ["--"] = 0 := by decide
        refine ⟨?_, ?_, ?_⟩
        · rw [h0]
          cases vb <;> simp
        · simp [h0]
        · intro x hx
          simp at hx
          exact Or.inr (Or.inr hx)
      · rw [if_neg hrest] at h
        simp at h
    · simp at h
    · simp at h
    · rename_i hcl
      have ha : a = "--verbose" := classify_eq_long_verbose hcl
      by_cases hvb : vb = true
      · rw [if_pos hvb] at h
        simp at h
      · rw [if_neg hvb] at h
        have hvb0 : vb = false := by simpa using hvb
        obtain ⟨ih1, ih2, ih3⟩ := ih h
        subst ha
        subst hvb0
        have h0 : countV rest = 0 := by
          simp at ih1
          omega
        have hcond :
            ("--verbose" : String) = "-v" ∨
              ("--verbose" : String) = "--verbose" := Or.inr rfl
        refine ⟨?_, ?_, ?_⟩
        · rw [countV_cons, if_pos hcond, h0]
          simp
        · have hv : c.verbose = true := ih2.mpr (Or.inl rfl)
          rw [hv, countV_cons, if_pos hcond, h0]
          simp
        · intro x hx
          rcases List.mem_cons.mp hx with hx1 | hx2
          · exact Or.inr (Or.inl hx1)
          · exact ih3 x hx2
    · rename_i cs hcl
      obtain ⟨hdata, hne⟩ := classify_eq_shorts hcl
      split at h
      · rename_i b hps
        obtain ⟨hcs, hvb0, hb⟩ := parseShorts_ok hne hps
        subst hcs
        subst hvb0
        subst hb
        have ha : a = "-v" := by
          apply String.ext
          rw [hdata]
        obtain ⟨ih1, ih2, ih3⟩ := ih h
        subst ha
        have h0 : countV rest = 0 := by
          simp at ih1
          omega
        have hcond :
            ("-v" : String) = "-v" ∨ ("-v" : String) = "--verbose" :=
          Or.inl rfl
        refine ⟨?_, ?_, ?_⟩
        · rw [countV_cons, if_pos hcond, h0]
          simp
        · have hv : c.verbose = true := ih2.mpr (Or.inl rfl)
          rw [hv, countV_cons, if_pos hcond, h0]
          simp
        · intro x hx
          rcases List.mem_cons.mp hx with hx1 | hx2
          · exact Or.inl hx1
          · exact ih3 x hx2
      · simp at h
      · simp at h
      · simp at h
    · simp at h

/-! ## Corollaries of the parse structure -/

theorem parse_ok_verbose_iff {args : List String} {c : Cli}
    (h : Cli.parse args = ParseResult.ok c) :
    (c.verbose = true ↔ 0 < countV args) := by
  have h' : parseTokens false args = ParseResult.ok c := h
  have h2 := (parseTokens_ok_spec h').2.1
  simpa using h2

theorem parse_ok_count_le {args : List String} {c : Cli}
    (h : Cli.parse args = ParseResult.ok c) : countV args ≤ 1 := by
  have h' : parseTokens false args = ParseResult.ok c := h
  have h1 := (parseTokens_ok_spec h').1
  simpa using h1

theorem parse_ok_mem {args : List String} {c : Cli}
    (h : Cli.parse args = ParseResult.ok c) :
    ∀ a ∈ args, a = "-v" ∨ a = "--verbose" ∨ a = "--" := by
  have h' : parseTokens false args = ParseResult.ok c := h
  exact (parseTokens_ok_spec h').2.2

/-! ## The claims -/

/-- C1: for every argument list that parses successfully and for every
failure outcome returned by the engine entry point, the process exit status
is non-success, regardless of the verbosity value that was passed to the
engine. -/
theorem C1_engine_failure_exits_nonsuccess {ε : Type}
    (run : Bool → Outcome ε) (args : List String) (c : Cli) (e : ε)
    (hp : Cli.parse args = ParseResult.ok c)
    (hr : run c.verbose = Outcome.err e) :
    mainExit run args = ExitStatus.failure := by
  simp [mainExit, mainFn, exitOf, hp, hr]

/-- Witness for C1: `-v` parses to `verbose = true`, and an engine that
fails on it makes the process exit with a non-success status. -/
theorem C1_witness :
    mainExit (fun _ => (Outcome.err 5 : Outcome Nat)) ["-v"] =
      ExitStatus.failure :=
  C1_engine_failure_exits_nonsuccess (fun _ => Outcome.err 5) ["-v"]
    ⟨true⟩ 5 (by decide) rfl

/-- C2: for every argument list that parses successfully, if the engine
entry point returns success then the process exit status is success,
regardless of the verbosity value that was passed to the engine. -/
theorem C2_engine_success_exits_success {ε : Type}
    (run : Bool → Outcome ε) (args : List String) (c : Cli)
    (hp : Cli.parse args = ParseResult.ok c)
    (hr : run c.verbose = Outcome.ok) :
    mainExit run args = ExitStatus.success := by
  simp [mainExit, mainFn, exitOf, hp, hr]

/-- Witness for C2: `--verbose` parses, and an engine that succeeds makes
the process exit with a success status. -/
theorem C2_witness :
    mainExit (fun _ => (Outcome.ok : Outcome Nat)) ["--verbose"] =
      ExitStatus.success :=
  C2_engine_success_exits_success (fun _ => Outcome.ok) ["--verbose"]
    ⟨true⟩ (by decide) rfl

/-- C3: for every argument list containing the short or long form of the
verbosity flag exactly once (in any position) that parses to a
configuration, that configuration's verbose value is true and the engine
entry point is called exactly once with true. -/
theorem C3_verbose_flag_once_sets_true (args : List String) (c : Cli)
    (hcount : countV args = 1) (hp : Cli.parse args = ParseResult.ok c) :
    c.verbose = true ∧ engineCalls args = [true] := by
  have hv : c.verbose = true := (parse_ok_verbose_iff hp).mpr (by omega)
  exact ⟨hv, by simp [engineCalls, hp, hv]⟩

/-- Witness for C3 at the argument list `["-v"]`. -/
theorem C3_witness :
    (⟨true⟩ : Cli).verbose = true ∧ engineCalls ["-v"] = [true] :=
  C3_verbose_flag_once_sets_true ["-v"] ⟨true⟩ (by decide) (by decide)

/-- C4: for every argument list that contains no verbosity flag and parses
to a configuration (so no help, version, or unrecognized argument either),
that configuration's verbose value is false and the engine entry point is
called with false. -/
theorem C4_no_flag_verbose_false (args : List String) (c : Cli)
    (h1 : "-v" ∉ args) (h2 : "--verbose" ∉ args)
    (hp : Cli.parse args = ParseResult.ok c) :
    c.verbose = false ∧ engineCalls args = [false] := by
  have h0 : countV args = 0 := by
    unfold countV
    rw [List.countP_eq_zero]
    intro a ha hpa
    have hor : a = "-v" ∨ a = "--verbose" := by simpa using hpa
    rcases hor with h | h
    · exact h1 (h ▸ ha)
    · exact h2 (h ▸ ha)
  have hv : c.verbose = false := by
    have hiff := parse_ok_verbose_iff hp
    rw [h0] at hiff
    simp at hiff
    exact hiff
  exact ⟨hv, by simp [engineCalls, hp, hv]⟩

/-- Witness for C4 at the empty argument list. -/
theorem C4_witness :
    (⟨false⟩ : Cli).verbose = false ∧ engineCalls [] = [false] :=
  C4_no_flag_verbose_false [] ⟨false⟩ (by decide) (by decide) (by decide)

/-- C5 counterexample: the argument list `["--bogus", "--help"]` contains a
help request, yet the parser reports the unknown argument `--bogus`, which
it reaches first: the parse is a usage error, the engine is never called,
and the process exit status is non-success — not success as the claim
requires. -/
theorem C5_counterexample :
    "--help" ∈ ["--bogus", "--help"] ∧
      Cli.parse ["--bogus", "--help"] = ParseResult.error ∧
      mainExit (fun _ => (Outcome.ok : Outcome Nat)) ["--bogus", "--help"] =
        ExitStatus.failure := by
  refine ⟨by decide, by decide, by decide⟩

/-- C5 (amended): for every argument list on which the parser actually
reaches the help or version flag and displays it (rather than failing
first on an erroneous argument), the engine entry point is never called
and the process exit status is success, for every engine. -/
theorem C5_help_version_display_success (args : List String)
    (hp : Cli.parse args = ParseResult.help ∨
      Cli.parse args = ParseResult.version) :
    engineCalls args = [] ∧
      ∀ {ε : Type} (run : Bool → Outcome ε),
        mainExit run args = ExitStatus.success := by
  rcases hp with hp | hp
  · refine ⟨by simp [engineCalls, hp], ?_⟩
    intro ε run
    simp [mainExit, mainFn, exitOf, hp]
  · refine ⟨by simp [engineCalls, hp], ?_⟩
    intro ε run
    simp [mainExit, mainFn, exitOf, hp]

/-- Witness for the amended C5 at the argument list `["--help"]`. -/
theorem C5_witness :
    engineCalls ["--help"] = [] ∧
      mainExit (fun _ => (Outcome.err 0 : Outcome Nat)) ["--help"] =
        ExitStatus.success :=
  ⟨(C5_help_version_display_success ["--help"] (Or.inl (by decide))).1,
    (C5_help_version_display_success ["--help"] (Or.inl (by decide))).2
      (fun _ => Outcome.err 0)⟩

/-- C6: on every process run the engine entry point is invoked at most
once; it is invoked (exactly once) precisely when parsing succeeded, and
never when help or version was displayed.  The call trace is a function of
the arguments alone, so no retry can follow a failure outcome. -/
theorem C6_engine_called_at_most_once (args : List String) :
    (engineCalls args).length ≤ 1 ∧
      ((engineCalls args).length = 1 ↔
        ∃ c, Cli.parse args = ParseResult.ok c) ∧
      (Cli.parse args = ParseResult.help ∨
          Cli.parse args = ParseResult.version →
        engineCalls args = []) := by
  cases hp : Cli.parse args with
  | ok c =>
    refine ⟨by simp [engineCalls, hp], ?_, ?_⟩
    · simp [engineCalls, hp]
    · intro hcon
      rcases hcon with h | h <;> simp at h
  | help =>
    refine ⟨by simp [engineCalls, hp], ?_, fun _ => by simp [engineCalls, hp]⟩
    simp [engineCalls, hp]
  | version =>
    refine ⟨by simp [engineCalls, hp], ?_, fun _ => by simp [engineCalls, hp]⟩
    simp [engineCalls, hp]
  | error =>
    refine ⟨by simp [engineCalls, hp], ?_, fun _ => by simp [engineCalls, hp]⟩
    simp [engineCalls, hp]

/-- Witness for C6 at the argument list `["--help"]`. -/
theorem C6_witness : engineCalls ["--help"] = [] :=
  (C6_engine_called_at_most_once ["--help"]).2.2 (Or.inl (by decide))

/-- C7: for every argument list that parses successfully, the outcome the
shell's entry point returns is exactly the outcome the engine entry point
returns for the parsed verbosity value — in particular a failure value
reaches the process boundary unchanged, with no recovery or
transformation by the shell. -/
theorem C7_outcome_passthrough {ε : Type} (run : Bool → Outcome ε)
    (args : List String) (c : Cli)
    (hp : Cli.parse args = ParseResult.ok c) :
    mainFn run args = ProcessResult.returned (run c.verbose) := by
  simp [mainFn, hp]

/-- Witness for C7: with `-v`, an engine failure value is returned from
`main` unchanged. -/
theorem C7_witness :
    mainFn (fun _ => (Outcome.err 7 : Outcome Nat)) ["-v"] =
      ProcessResult.returned (Outcome.err 7) :=
  C7_outcome_passthrough (fun _ => Outcome.err 7) ["-v"] ⟨true⟩ (by decide)

/-- C8: for every argument list containing an argument that is not one of
the recognised flag strings, the engine entry point is never called: the
parse never produces a configuration (the invocation ends inside the
parser with its standard behavior). -/
theorem C8_unrecognized_blocks_engine (args : List String) (a : String)
    (ha : a ∈ args) (hr : recognizedArg a = false) :
    engineCalls args = [] ∧ ∀ c, Cli.parse args ≠ ParseResult.ok c := by
  have hnot : ∀ c, Cli.parse args ≠ ParseResult.ok c := by
    intro c hp
    rcases parse_ok_mem hp a ha with h | h | h <;> subst h <;>
      exact absurd hr (by decide)
  refine ⟨?_, hnot⟩
  cases hp : Cli.parse args with
  | ok c => exact absurd hp (hnot c)
  | help => simp [engineCalls, hp]
  | version => simp [engineCalls, hp]
  | error => simp [engineCalls, hp]

/-- Witness for C8 at the argument list `["bogus"]`. -/
theorem C8_witness : engineCalls ["bogus"] = [] :=
  (C8_unrecognized_blocks_engine ["bogus"] "bogus" (by decide) (by decide)).1

/-- C9: the short form of the verbosity flag is exactly `-v` and the long
form exactly `--verbose`: as a single argument each of these parses to a
configuration with `verbose = true`, and no other argument string does. -/
theorem C9_flag_forms :
    Cli.parse ["-v"] = ParseResult.ok ⟨true⟩ ∧
      Cli.parse ["--verbose"] = ParseResult.ok ⟨true⟩ ∧
      ∀ (a : String) (c : Cli), Cli.parse [a] = ParseResult.ok c →
        a ≠ "-v" → a ≠ "--verbose" → c.verbose = false := by
  refine ⟨by decide, by decide, ?_⟩
  intro a c hp h1 h2
  rcases parse_ok_mem hp a (by simp) with h | h | h
  · exact absurd h h1
  · exact absurd h h2
  · subst h
    have hiff := parse_ok_verbose_iff hp
    have h0 : countV ["--"] = 0 := by decide
    rw [h0] at hiff
    simp at hiff
    exact hiff

/-- Witness for C9: `--` parses successfully and leaves `verbose` false. -/
theorem C9_witness : (⟨false⟩ : Cli).verbose = false :=
  C9_flag_forms.2.2 "--" ⟨false⟩ (by decide) (by decide) (by decide)

/-- C10 counterexample: in `["--help", "-v", "-v"]` the verbosity flag
occurs twice, but parsing does not fail with a usage error: the parser
reaches `--help` first and displays help, and the process exits with a
success status. -/
theorem C10_counterexample :
    countV ["--help", "-v", "-v"] = 2 ∧
      Cli.parse ["--help", "-v", "-v"] = ParseResult.help ∧
      mainExit (fun _ => (Outcome.ok : Outcome Nat))
          ["--help", "-v", "-v"] = ExitStatus.success := by
  refine ⟨by decide, by decide, by decide⟩

/-- C10 (amended): if the verbosity flag occurs more than once (short
form, long form, or a mix), the engine entry point is never called and no
configuration is produced; parsing fails with a usage error unless an
earlier argument already triggered the help or version display. -/
theorem C10_duplicate_flag_rejected (args : List String)
    (h2 : 2 ≤ countV args) :
    engineCalls args = [] ∧
      (Cli.parse args = ParseResult.error ∨
        Cli.parse args = ParseResult.help ∨
        Cli.parse args = ParseResult.version) := by
  have hnot : ∀ c, Cli.parse args ≠ ParseResult.ok c := by
    intro c hp
    have := parse_ok_count_le hp
    omega
  cases hp : Cli.parse args with
  | ok c => exact absurd hp (hnot c)
  | help => exact ⟨by simp [engineCalls, hp], Or.inr (Or.inl rfl)⟩
  | version => exact ⟨by simp [engineCalls, hp], Or.inr (Or.inr rfl)⟩
  | error => exact ⟨by simp [engineCalls, hp], Or.inl rfl⟩

/-- Witness for the amended C10 at the argument list `["-v", "-v"]`. -/
theorem C10_witness : engineCalls ["-v", "-v"] = [] :=
  (C10_duplicate_flag_rejected ["-v", "-v"] (by decide)).1
